import Mathlib

/-!
Shallow embedding of the session / interrupt / state layer of the
browser-use agent (Python sources under `browser_use_agent/`), together
with proofs of the specified properties.

Python dictionaries keyed by strings are modelled as association lists
with first-match lookup; all mutating Python functions are modelled as
pure functions returning the updated state.
-/

/-- First-match lookup in an association list (Python `d.get(k)` /
`d[k]`, assuming the usual dict invariant that keys are unique). -/
def dictGet {β : Type} (k : String) : List (String × β) → Option β
  | [] => none
  | (k', v) :: rest => if k' = k then some v else dictGet k rest

/-- Python `d[k] = v`: overwrite the entry if the key is present,
otherwise append a fresh entry. -/
def dictSet {β : Type} (k : String) (v : β) : List (String × β) → List (String × β)
  | [] => [(k, v)]
  | (k', v') :: rest =>
      if k' = k then (k, v) :: rest else (k', v') :: dictSet k v rest

/-- Python `del d[k]` guarded by `if k in d` (removes every entry with
the key; a dict has at most one). -/
def dictDel {β : Type} (k : String) : List (String × β) → List (String × β)
  | [] => []
  | (k', v') :: rest =>
      if k' = k then dictDel k rest else (k', v') :: dictDel k rest

/-- Membership test, Python `k in d`. -/
def dictHas {β : Type} (k : String) (l : List (String × β)) : Bool :=
  (dictGet k l).isSome

@[simp] theorem dictGet_nil {β : Type} (k : String) :
    dictGet (β := β) k [] = none := rfl

@[simp] theorem dictGet_cons {β : Type} (k k' : String) (v : β) (rest : List (String × β)) :
    dictGet k ((k', v) :: rest) = if k' = k then some v else dictGet k rest := rfl

@[simp] theorem dictSet_nil {β : Type} (k : String) (v : β) :
    dictSet (β := β) k v [] = [(k, v)] := rfl

@[simp] theorem dictSet_cons {β : Type} (k k' : String) (v v' : β) (rest : List (String × β)) :
    dictSet k v ((k', v') :: rest) =
      if k' = k then (k, v) :: rest else (k', v') :: dictSet k v rest := rfl

@[simp] theorem dictDel_nil {β : Type} (k : String) :
    dictDel (β := β) k [] = [] := rfl

@[simp] theorem dictDel_cons {β : Type} (k k' : String) (v' : β) (rest : List (String × β)) :
    dictDel k ((k', v') :: rest) =
      if k' = k then dictDel k rest else (k', v') :: dictDel k rest := rfl

theorem dictGet_dictSet_self {β : Type} (k : String) (v : β) (l : List (String × β)) :
    dictGet k (dictSet k v l) = some v := by
  induction l with
  | nil => simp
  | cons hd tl ih =>
      obtain ⟨k', v'⟩ := hd
      by_cases h : k' = k <;> simp [h, ih]

theorem dictGet_dictSet_ne {β : Type} (k k' : String) (v : β) (l : List (String × β))
    (h : k ≠ k') : dictGet k' (dictSet k v l) = dictGet k' l := by
  induction l with
  | nil => simp [h]
  | cons hd tl ih =>
      obtain ⟨k'', v''⟩ := hd
      by_cases hk : k'' = k
      · subst hk; simp [h, fun hc : k'' = k' => h (hc.symm ▸ rfl)]
      · simp [hk, ih]

theorem dictGet_dictDel_self {β : Type} (k : String) (l : List (String × β)) :
    dictGet k (dictDel k l) = none := by
  induction l with
  | nil => simp
  | cons hd tl ih =>
      obtain ⟨k', v'⟩ := hd
      by_cases h : k' = k <;> simp [h, ih]

theorem dictGet_dictDel_ne {β : Type} (k k' : String) (l : List (String × β))
    (h : k ≠ k') : dictGet k' (dictDel k l) = dictGet k' l := by
  induction l with
  | nil => simp
  | cons hd tl ih =>
      obtain ⟨k'', v''⟩ := hd
      by_cases hk : k'' = k
      · subst hk
        have hne : k'' ≠ k' := h
        simp [hne, ih]
      · simp [hk, ih]

/-! ## Port Allocator: `StreamManager` (`browser_use_agent/utils.py`)

`get_port_for_thread` computes
`port = base_port + int(hashlib.md5(thread_id.encode()).hexdigest(), 16) % max_offset`.
The MD5 digest (from Python's `hashlib`, an external library primitive)
is modelled as an arbitrary function `md5Nat : String → Nat`; every
theorem below is proved for all such functions, so it holds in
particular for the real digest. -/

structure StreamManager where
  base_port : Nat
  max_offset : Nat
  active_ports : List (String × Nat)
  deriving DecidableEq, Repr

/-- Embeds `StreamManager()` with the default arguments (`utils.py` line 82:
`stream_manager = StreamManager()`). -/
def StreamManager.default : StreamManager :=
  { base_port := 9223, max_offset := 1000, active_ports := [] }

/-- Embeds `StreamManager.get_port_for_thread`: return the cached port if one
exists, otherwise derive it from the MD5 hash of the thread id and
cache it. -/
def get_port_for_thread (md5Nat : String → Nat) (sm : StreamManager)
    (thread_id : String) : Nat × StreamManager :=
  match dictGet thread_id sm.active_ports with
  | some p => (p, sm)
  | none =>
      let port_offset := md5Nat thread_id % sm.max_offset
      let port := sm.base_port + port_offset
      (port, { sm with active_ports := dictSet thread_id port sm.active_ports })

/-- Embeds `StreamManager.get_stream_url`: `f"ws://localhost:{port}"` for the
thread's port (allocating it if needed). -/
def get_stream_url (md5Nat : String → Nat) (sm : StreamManager)
    (thread_id : String) : String × StreamManager :=
  let (port, sm') := get_port_for_thread md5Nat sm thread_id
  ("ws://localhost:" ++ toString port, sm')

/-- Embeds `StreamManager.release_port`: delete the thread's entry if present
(no-op otherwise). -/
def release_port (sm : StreamManager) (thread_id : String) : StreamManager :=
  { sm with active_ports := dictDel thread_id sm.active_ports }

/-- Embeds `StreamManager.is_active`. -/
def StreamManager.is_active (sm : StreamManager) (thread_id : String) : Bool :=
  dictHas thread_id sm.active_ports

/-- States of the process-wide `stream_manager` reachable from its
initial value through the operations that mutate it. -/
inductive StreamReachable (md5Nat : String → Nat) : StreamManager → Prop
  | init : StreamReachable md5Nat StreamManager.default
  | get (sm : StreamManager) (t : String) :
      StreamReachable md5Nat sm →
      StreamReachable md5Nat (get_port_for_thread md5Nat sm t).2
  | rel (sm : StreamManager) (t : String) :
      StreamReachable md5Nat sm →
      StreamReachable md5Nat (release_port sm t)

/-- Cache consistency: every cached port is the hash-derived one. -/
def PortsConsistent (md5Nat : String → Nat) (sm : StreamManager) : Prop :=
  ∀ t p, dictGet t sm.active_ports = some p →
    p = sm.base_port + md5Nat t % sm.max_offset

theorem get_port_snd (md5Nat : String → Nat) (sm : StreamManager) (t : String) :
    (get_port_for_thread md5Nat sm t).2 =
      match dictGet t sm.active_ports with
      | some _ => sm
      | none =>
          { sm with active_ports :=
              dictSet t (sm.base_port + md5Nat t % sm.max_offset) sm.active_ports } := by
  unfold get_port_for_thread
  cases dictGet t sm.active_ports <;> rfl

theorem get_port_fst (md5Nat : String → Nat) (sm : StreamManager) (t : String) :
    (get_port_for_thread md5Nat sm t).1 =
      match dictGet t sm.active_ports with
      | some p => p
      | none => sm.base_port + md5Nat t % sm.max_offset := by
  unfold get_port_for_thread
  cases dictGet t sm.active_ports <;> rfl

theorem portsConsistent_get (md5Nat : String → Nat) (sm : StreamManager) (t : String)
    (h : PortsConsistent md5Nat sm) :
    PortsConsistent md5Nat (get_port_for_thread md5Nat sm t).2 := by
  rw [get_port_snd]
  cases hc : dictGet t sm.active_ports with
  | some q => exact h
  | none =>
      intro t' p hp
      simp only at hp ⊢
      by_cases ht : t = t'
      · subst ht
        rw [dictGet_dictSet_self] at hp
        exact (Option.some_inj.mp hp).symm
      · rw [dictGet_dictSet_ne _ _ _ _ ht] at hp
        exact h t' p hp

theorem portsConsistent_rel (md5Nat : String → Nat) (sm : StreamManager) (t : String)
    (h : PortsConsistent md5Nat sm) :
    PortsConsistent md5Nat (release_port sm t) := by
  intro t' p hp
  unfold release_port at hp
  by_cases ht : t = t'
  · subst ht; rw [dictGet_dictDel_self] at hp; cases hp
  · rw [dictGet_dictDel_ne _ _ _ ht] at hp; exact h t' p hp

theorem get_preserves_base (md5Nat : String → Nat) (sm : StreamManager) (t : String) :
    (get_port_for_thread md5Nat sm t).2.base_port = sm.base_port ∧
    (get_port_for_thread md5Nat sm t).2.max_offset = sm.max_offset := by
  unfold get_port_for_thread
  cases dictGet t sm.active_ports <;> simp

theorem streamReachable_invariant (md5Nat : String → Nat) (sm : StreamManager)
    (h : StreamReachable md5Nat sm) :
    sm.base_port = 9223 ∧ sm.max_offset = 1000 ∧ PortsConsistent md5Nat sm := by
  induction h with
  | init =>
      refine ⟨rfl, rfl, ?_⟩
      intro t p hp
      simp [StreamManager.default] at hp
  | get sm t _ ih =>
      obtain ⟨hb, hm, hc⟩ := ih
      obtain ⟨hb', hm'⟩ := get_preserves_base md5Nat sm t
      exact ⟨hb' ▸ hb, hm' ▸ hm, portsConsistent_get md5Nat sm t hc⟩
  | rel sm t _ ih =>
      obtain ⟨hb, hm, hc⟩ := ih
      exact ⟨hb, hm, portsConsistent_rel md5Nat sm t hc⟩

/-! ## Presented-files reducer
(`browser_use_agent/middleware/presented_files.py`)

The list elements are Python dicts; their contents are irrelevant to
the reducer, so the element type is a parameter. -/

/-- Embeds `_presented_files_reducer`. -/
def presented_files_reducer {δ : Type} :
    Option (List δ) → Option (List δ) → List δ
  | none, right => match right with
      | some r => r
      | none => []
  | some l, none => l
  | some l, some r => l ++ r

/-! ## Command Executor: `_run_browser_command`
(`browser_use_agent/tools.py` lines 174-226)

The external `agent-browser` subprocess is modelled by its observable
outcome, which `subprocess.run` either returns (a completed process
with exit code / stdout / stderr), raises as `TimeoutExpired`, or
raises as some other exception. -/

/-- Outcome of the `subprocess.run` call for one external command. -/
inductive ProcOutcome where
  | completed (returncode : Int) (stdout : String) (stderr : String)
  | timedOut
  | raised (msg : String)
  deriving DecidableEq, Repr

/-- The dict `{"success": ..., "output": ..., "error": ...}` returned by
`_run_browser_command`. -/
structure CommandResult where
  success : Bool
  output : String
  error : Option String
  deriving DecidableEq, Repr

/-- Timeout passed to `subprocess.run` in `_run_browser_command`
(`timeout=30`). -/
def BROWSER_COMMAND_TIMEOUT_SECONDS : Nat := 30

/-- The full command list built by `_run_browser_command`:
`["agent-browser", "--cdp", str(port)] + command` when CDP is
configured, else `["agent-browser", "--session", thread_id] + command`. -/
def build_full_command (use_cdp : Bool) (cdp_port : Nat) (thread_id : String)
    (command : List String) : List String :=
  if use_cdp then ["agent-browser", "--cdp", toString cdp_port] ++ command
  else ["agent-browser", "--session", thread_id] ++ command

/-- Result mapping of `_run_browser_command` (lines 201-226): success
iff the process exited with code 0; stderr becomes the error on
non-zero exit; `TimeoutExpired` and other exceptions become failure
records. -/
def run_browser_command_result : ProcOutcome → CommandResult
  | .completed rc out err =>
      { success := rc == 0
        output := out
        error := if rc ≠ 0 then some err else none }
  | .timedOut =>
      { success := false
        output := ""
        error := some "Command timed out after 30 seconds" }
  | .raised msg =>
      { success := false
        output := ""
        error := some msg }

/-! ## Session Registry (`browser_use_agent/tools.py`)

`_browser_sessions` maps thread ids to
`{"sessionId", "streamUrl", "isActive"}` plus an optional internal
`"lastActivity"` timestamp. Timestamps (`datetime.now()`) are modelled
as integers; `(now - last_activity).total_seconds()` becomes integer
subtraction. -/

structure BrowserSession where
  sessionId : String
  streamUrl : Option String
  isActive : Bool
  lastActivity : Option Int
  deriving DecidableEq, Repr

/-- The combined mutable module state of `tools.py` that the session
operations touch: the global `stream_manager` and `_browser_sessions`. -/
structure ToolsState where
  sm : StreamManager
  sessions : List (String × BrowserSession)
  deriving DecidableEq, Repr

/-- Embeds `_update_browser_session(thread_id, is_active, update_last_activity)`
(lines 229-251), with the current wall-clock time `now` passed
explicitly. When `is_active` it calls `stream_manager.get_stream_url`
(which may allocate a port, hence the state passing). -/
def update_browser_session (md5Nat : String → Nat) (st : ToolsState)
    (thread_id : String) (is_active : Bool) (update_last_activity : Bool)
    (now : Int) : ToolsState :=
  let (stream_url, sm') :=
    if is_active then
      let (u, sm') := get_stream_url md5Nat st.sm thread_id
      (some u, sm')
    else (none, st.sm)
  let last_activity :=
    if update_last_activity && is_active then some now
    else match dictGet thread_id st.sessions with
      | some s => s.lastActivity
      | none => none
  { sm := sm'
    sessions :=
      dictSet thread_id
        { sessionId := thread_id
          streamUrl := stream_url
          isActive := is_active
          lastActivity := last_activity } st.sessions }

/-- Embeds `browser_close(thread_id)` (lines 679-700): run the external
`close` command, release the stream port, mark the session inactive,
then report success or failure of the external command. The outcome of
the external `close` subprocess is an input. -/
def browser_close (md5Nat : String → Nat) (st : ToolsState) (thread_id : String)
    (close_outcome : ProcOutcome) (now : Int) : String × ToolsState :=
  let result := run_browser_command_result close_outcome
  let st1 : ToolsState := { st with sm := release_port st.sm thread_id }
  let st2 := update_browser_session md5Nat st1 thread_id false true now
  if result.success then ("Browser session closed successfully", st2)
  else ("Failed to close browser: " ++ (result.error.getD "None"), st2)

/-- Idle threshold `BROWSER_TIMEOUT_SECONDS = 300` (tools.py line 76). -/
def BROWSER_TIMEOUT_SECONDS : Int := 300

/-- The scan predicate of one `_cleanup_inactive_sessions` tick (lines
287-296): an active session with a recorded `lastActivity` whose idle
duration strictly exceeds the threshold. -/
def session_is_stale (now : Int) (s : BrowserSession) : Bool :=
  s.isActive &&
    match s.lastActivity with
    | some la => now - la > BROWSER_TIMEOUT_SECONDS
    | none => false

/-- The per-session close step of the reaper loop (lines 299-308): run
the external `close` command (its outcome only affects logging, not
state), release the port, and mark the session inactive without
touching `lastActivity`. -/
def cleanup_close_step (st : ToolsState) (thread_id : String) : ToolsState :=
  let st1 : ToolsState := { st with sm := release_port st.sm thread_id }
  update_browser_session (fun _ => 0) st1 thread_id false false 0

/-- One tick of `_cleanup_inactive_sessions`: scan a snapshot of the
session table for stale sessions, then close each of them. Returns the
new state together with the list of thread ids that were closed (for
each of which the external `close` command was invoked). The hash
function and `now` passed to `update_browser_session` are irrelevant on
the `is_active=False, update_last_activity=False` path, so fixed
dummies are used inside `cleanup_close_step`. -/
def cleanup_tick (st : ToolsState) (now : Int) : ToolsState × List String :=
  let inactive_threads :=
    (st.sessions.filter (fun p => session_is_stale now p.2)).map Prod.fst
  (inactive_threads.foldl cleanup_close_step st, inactive_threads)

/-! ## Sub-agent interrupt forwarding
(`browser_use_agent/subagent_interrupt.py`)

A `SubagentInterrupt` is a `TypedDict`; the human response has Python
type `Any`, modelled by a type parameter `α`. The interrupt payload
dict is modelled as a string-keyed association list. The functions
mutate the `pending_subagent_interrupts` list of the parent state in
place; here they return the updated list. -/

structure SubagentInterrupt (α : Type) where
  id : String
  subagent_id : String
  subagent_name : String
  interrupt_type : String
  interrupt_data : List (String × String)
  response : Option α
  created_at : Nat
  status : String
  deriving DecidableEq, Repr

/-- The dict returned by `check_and_resume_subagents` on success:
`{"resume_subagent_id", "resume_value", "interrupt_id"}`. The resume
value is `interrupt.get("response")`, hence an `Option`. -/
structure ResumeInfo (α : Type) where
  resume_subagent_id : String
  resume_value : Option α
  interrupt_id : String
  deriving DecidableEq, Repr

/-- Embeds `respond_to_subagent_interrupt(state, interrupt_id, response)`
(lines 124-147): walk `pending_subagent_interrupts`; at the first entry
whose `id` matches, set `status = "responded"`, store the response and
return `True`; return `False` when no entry matches. Note that the
prior status of the matching entry is not inspected. -/
def respond_to_subagent_interrupt {α : Type}
    (interrupts : List (SubagentInterrupt α)) (interrupt_id : String)
    (response : α) : Bool × List (SubagentInterrupt α) :=
  match interrupts with
  | [] => (false, [])
  | i :: rest =>
      if i.id = interrupt_id then
        (true, { i with status := "responded", response := some response } :: rest)
      else
        let (found, rest') := respond_to_subagent_interrupt rest interrupt_id response
        (found, i :: rest')

/-- Embeds `check_and_resume_subagents(state)` (lines 99-121): find the first
entry with `status == "responded"`, mark it `"resumed"` and return its
resume info; return `None` when no entry is in `"responded"` status. -/
def check_and_resume_subagents {α : Type}
    (interrupts : List (SubagentInterrupt α)) :
    Option (ResumeInfo α) × List (SubagentInterrupt α) :=
  match interrupts with
  | [] => (none, [])
  | i :: rest =>
      if i.status = "responded" then
        (some { resume_subagent_id := i.subagent_id
                resume_value := i.response
                interrupt_id := i.id },
         { i with status := "resumed" } :: rest)
      else
        let (r, rest') := check_and_resume_subagents rest
        (r, i :: rest')

/-- The interrupt record appended by
`execute_subagent_with_interrupt_capture` (lines 72-87) when a subagent
raises an interrupt: fresh ids, `status = "pending"`, no response yet. -/
def make_subagent_interrupt {α : Type} (new_id subagent_id subagent_name : String)
    (interrupt_type : String) (interrupt_data : List (String × String))
    (created_at : Nat) : SubagentInterrupt α :=
  { id := new_id
    subagent_id := subagent_id
    subagent_name := subagent_name
    interrupt_type := interrupt_type
    interrupt_data := interrupt_data
    response := none
    created_at := created_at
    status := "pending" }

/-- Interrupt-capture path of `execute_subagent_with_interrupt_capture`
(lines 72-96): the new pending interrupt is appended unconditionally to
`parent_state["pending_subagent_interrupts"]` — no check against
existing entries for the same origin. -/
def capture_subagent_interrupt {α : Type}
    (interrupts : List (SubagentInterrupt α)) (new_id subagent_id subagent_name : String)
    (interrupt_type : String) (interrupt_data : List (String × String))
    (created_at : Nat) : List (SubagentInterrupt α) :=
  interrupts ++
    [make_subagent_interrupt new_id subagent_id subagent_name interrupt_type
      interrupt_data created_at]

/-! ## Human-in-the-loop request store
(`browser_use_agent/human_loop.py`)

`_human_requests` is a module-global dict from request id to request
dict, `_request_counter` a module-global counter. The human response
has type `Any`, modelled by a parameter `α`; `datetime.now().isoformat()`
timestamps are passed in as strings. -/

structure HumanRequest (α : Type) where
  id : String
  type : String
  thread_id : String
  context : String
  question : String
  options : Option (List String)
  status : String
  created_at : String
  response : Option α
  completed_at : Option String
  deriving DecidableEq, Repr

structure HumanLoopState (α : Type) where
  human_requests : List (String × HumanRequest α)
  request_counter : Nat
  deriving DecidableEq, Repr

/-- The initial module state: empty dict, counter 0. -/
def HumanLoopState.initial (α : Type) : HumanLoopState α :=
  { human_requests := [], request_counter := 0 }

/-- Embeds `_create_request(request_type, thread_id, context, question, options)`
(lines 18-55): bump the counter, build the id
`f"{thread_id}_{request_type}_{counter}"`, store a `pending` request
unconditionally, and return it. -/
def create_request {α : Type} (st : HumanLoopState α) (request_type : String)
    (thread_id : String) (context : String) (question : String)
    (options : Option (List String)) (now : String) :
    HumanRequest α × HumanLoopState α :=
  let counter := st.request_counter + 1
  let request_id := thread_id ++ "_" ++ request_type ++ "_" ++ toString counter
  let request : HumanRequest α :=
    { id := request_id
      type := request_type
      thread_id := thread_id
      context := context
      question := question
      options := options
      status := "pending"
      created_at := now
      response := none
      completed_at := none }
  (request,
   { human_requests := dictSet request_id request st.human_requests
     request_counter := counter })

/-- Embeds `get_pending_requests(thread_id)` (lines 58-70). -/
def get_pending_requests {α : Type} (st : HumanLoopState α) (thread_id : String) :
    List (HumanRequest α) :=
  (st.human_requests.map Prod.snd).filter
    (fun req => req.thread_id = thread_id && req.status = "pending")

/-- Embeds `submit_response(request_id, response)` (lines 85-106): fail when
the id is unknown, fail when the request is not `pending` (leaving the
store untouched), otherwise store the response and mark `completed`. -/
def submit_response {α : Type} (st : HumanLoopState α) (request_id : String)
    (response : α) (now : String) : Bool × HumanLoopState α :=
  match dictGet request_id st.human_requests with
  | none => (false, st)
  | some request =>
      if request.status ≠ "pending" then (false, st)
      else
        let request' : HumanRequest α :=
          { request with
              response := some response
              status := "completed"
              completed_at := some now }
        (true, { st with human_requests := dictSet request_id request' st.human_requests })

/-! ## Bash tool security model (`browser_use_agent/bash_tool.py`)

The regular expressions in `AUTO_APPROVED_PATTERNS` and
`BLOCKED_PATTERNS` use only literals, the classes `\s`, `\d`, `\w`-based
bracket classes, `[lwc]`, `.`, the quantifiers `+`, `*` and `?`, the
anchor `$`, and single optional groups `(...)?`. They are embedded as
token lists over character classes; each `(...)?` group is expanded
into the two alternatives with and without the group, which is
semantically equivalent for boolean matching. `re.match` anchors at the
start of the string (a leading `^` is redundant there) and succeeds on
a prefix match; `re.search` matches at any position. -/

/-- Character classes appearing in the source regexes. `\w` is modelled
as ASCII alphanumerics plus underscore; `.` matches any character
except a newline (Python default, no DOTALL). -/
inductive CClass where
  | lit (c : Char)
  | ws
  | wordPlus (extra : List Char)
  | digit
  | anyc
  | oneOf (cs : List Char)
  deriving DecidableEq, Repr

/-- Python whitespace class `\s` (ASCII part): space, tab, newline,
carriage return, vertical tab, form feed. -/
def pyIsSpace (c : Char) : Bool :=
  c = ' ' || c = '\t' || c = '\n' || c = '\r' || c = Char.ofNat 11 || c = Char.ofNat 12

def CClass.matches : CClass → Char → Bool
  | .lit c, x => x = c
  | .ws, x => pyIsSpace x
  | .wordPlus extra, x => x.isAlphanum || x = '_' || extra.contains x
  | .digit, x => x.isDigit
  | .anyc, x => x ≠ '\n'
  | .oneOf cs, x => cs.contains x

/-- Regex tokens: a single class occurrence, a starred or plus-ed
class, and the end-of-string anchor. -/
inductive RTok where
  | one (c : CClass)
  | star (c : CClass)
  | plus (c : CClass)
  | eos
  deriving DecidableEq, Repr

/-- All suffixes of `s` obtainable by consuming zero or more leading
characters satisfying `p` — the candidate remainders after a starred
class, in order of fewest characters consumed first. -/
def starSplits (p : Char → Bool) : List Char → List (List Char)
  | [] => [[]]
  | x :: xs => (x :: xs) :: (if p x then starSplits p xs else [])

/-- Anchored matching with full backtracking: `matchHere toks s` is
true iff some prefix of `s` matches the whole token sequence (the
semantics of `re.match` against pattern `toks`). A starred class
matches any run of characters from the class, so every split point
along the maximal run is tried; `+` is one mandatory character
followed by a star. -/
def matchHere : List RTok → List Char → Bool
  | [], _ => true
  | .one c :: rest, s =>
      match s with
      | [] => false
      | x :: xs => c.matches x && matchHere rest xs
  | .star c :: rest, s =>
      (starSplits c.matches s).any (fun s' => matchHere rest s')
  | .plus c :: rest, s =>
      match s with
      | [] => false
      | x :: xs =>
          c.matches x && (starSplits c.matches xs).any (fun s' => matchHere rest s')
  | .eos :: rest, s => s.isEmpty && matchHere rest s

/-- Unanchored matching: `searchHere toks s` is true iff `toks` matches
starting at some position of `s` (the semantics of `re.search`). -/
def searchHere (toks : List RTok) : List Char → Bool
  | [] => matchHere toks []
  | x :: xs => matchHere toks (x :: xs) || searchHere toks xs

/-- Python `str.strip()` with no argument: drop leading and trailing
whitespace. -/
def pyStrip (s : String) : String :=
  String.mk (((s.data.dropWhile pyIsSpace).reverse.dropWhile pyIsSpace).reverse)

/-- Token list of a string of literal characters. -/
def lits (s : String) : List RTok := s.data.map (fun c => RTok.one (CClass.lit c))

def wsPlus : RTok := .plus .ws

def wsStar : RTok := .star .ws

/-- Class `[\w\-_./]` used for script/file names. -/
def fileCls : CClass := .wordPlus ['-', '_', '.', '/']

/-- Class `[\w\-_\[\]]` used for pip package names. -/
def pkgCls : CClass := .wordPlus ['-', '_', '[', ']']

/-- Class `[\w\-_@/]` used for npm package names. -/
def npmCls : CClass := .wordPlus ['-', '_', '@', '/']

/-- Class used for ls arguments: word characters plus dash,
underscore, dot and slash (the source bracket class lists the dash
twice, once escaped and once trailing). -/
def lsCls : CClass := .wordPlus ['-', '_', '.', '/', '-']

/-- Embeds `BLOCKED_PATTERNS` (bash_tool.py lines 102-113), in source
order: `sudo`, `rm\s+-rf\s+/`, `rm\s+-rf\s+~`, `>\s*/dev/`, `mkfs`,
`dd\s+if=`, `:\(\)\{`, `chmod\s+777`, `curl.*\|\s*bash`,
`wget.*\|\s*bash`. The fork-bomb pattern's trailing brace character is
written via its code point. -/
def BLOCKED_PATTERNS : List (List RTok) :=
  [ lits "sudo",
    lits "rm" ++ [wsPlus] ++ lits "-rf" ++ [wsPlus] ++ lits "/",
    lits "rm" ++ [wsPlus] ++ lits "-rf" ++ [wsPlus] ++ lits "~",
    lits ">" ++ [wsStar] ++ lits "/dev/",
    lits "mkfs",
    lits "dd" ++ [wsPlus] ++ lits "if=",
    lits ":()" ++ [RTok.one (CClass.lit (Char.ofNat 123))],
    lits "chmod" ++ [wsPlus] ++ lits "777",
    lits "curl" ++ [RTok.star .anyc] ++ lits "|" ++ [wsStar] ++ lits "bash",
    lits "wget" ++ [RTok.star .anyc] ++ lits "|" ++ [wsStar] ++ lits "bash" ]

/-- Embeds `AUTO_APPROVED_PATTERNS` (bash_tool.py lines 82-99), in
source order; each Python regex becomes a list of group-free
alternatives (one per choice of including each `(...)?` group). -/
def AUTO_APPROVED_PATTERNS : List (List (List RTok)) :=
  [ -- r"^python\s+[\w\-_./]+\.py(\s+.*)?$"
    [ lits "python" ++ [wsPlus, .plus fileCls] ++ lits ".py" ++ [.eos],
      lits "python" ++ [wsPlus, .plus fileCls] ++ lits ".py" ++ [wsPlus, .star .anyc, .eos] ],
    -- r"^python3\s+[\w\-_./]+\.py(\s+.*)?$"
    [ lits "python3" ++ [wsPlus, .plus fileCls] ++ lits ".py" ++ [.eos],
      lits "python3" ++ [wsPlus, .plus fileCls] ++ lits ".py" ++ [wsPlus, .star .anyc, .eos] ],
    -- r"^python\s+--version$"
    [ lits "python" ++ [wsPlus] ++ lits "--version" ++ [.eos] ],
    -- r"^python3\s+--version$"
    [ lits "python3" ++ [wsPlus] ++ lits "--version" ++ [.eos] ],
    -- r"^node\s+[\w\-_./]+\.js(\s+.*)?$"
    [ lits "node" ++ [wsPlus, .plus fileCls] ++ lits ".js" ++ [.eos],
      lits "node" ++ [wsPlus, .plus fileCls] ++ lits ".js" ++ [wsPlus, .star .anyc, .eos] ],
    -- r"^pip\s+install\s+[\w\-_\[\]]+"
    [ lits "pip" ++ [wsPlus] ++ lits "install" ++ [wsPlus, .plus pkgCls] ],
    -- r"^pip3\s+install\s+[\w\-_\[\]]+"
    [ lits "pip3" ++ [wsPlus] ++ lits "install" ++ [wsPlus, .plus pkgCls] ],
    -- r"^npm\s+install(\s+[\w\-_@/]+)?"
    [ lits "npm" ++ [wsPlus] ++ lits "install",
      lits "npm" ++ [wsPlus] ++ lits "install" ++ [wsPlus, .plus npmCls] ],
    -- r"^cat\s+[\w\-_./]+"
    [ lits "cat" ++ [wsPlus, .plus fileCls] ],
    -- r"^ls(\s+[\w\-_./-]*)?$"
    [ lits "ls" ++ [.eos],
      lits "ls" ++ [wsPlus, .star lsCls, .eos] ],
    -- r"^head(\s+-n\s+\d+)?\s+[\w\-_./]+"
    [ lits "head" ++ [wsPlus, .plus fileCls],
      lits "head" ++ [wsPlus] ++ lits "-n" ++ [wsPlus, .plus .digit, wsPlus, .plus fileCls] ],
    -- r"^tail(\s+-n\s+\d+)?\s+[\w\-_./]+"
    [ lits "tail" ++ [wsPlus, .plus fileCls],
      lits "tail" ++ [wsPlus] ++ lits "-n" ++ [wsPlus, .plus .digit, wsPlus, .plus fileCls] ],
    -- r"^pwd$"
    [ lits "pwd" ++ [.eos] ],
    -- r"^echo\s+"
    [ lits "echo" ++ [wsPlus] ],
    -- r"^mkdir\s+-?p?\s+[\w\-_./]+"
    [ lits "mkdir" ++ [wsPlus, wsPlus, .plus fileCls],
      lits "mkdir" ++ [wsPlus] ++ lits "-" ++ [wsPlus, .plus fileCls],
      lits "mkdir" ++ [wsPlus] ++ lits "p" ++ [wsPlus, .plus fileCls],
      lits "mkdir" ++ [wsPlus] ++ lits "-p" ++ [wsPlus, .plus fileCls] ],
    -- r"^wc(\s+-[lwc]+)?\s+[\w\-_./]+"
    [ lits "wc" ++ [wsPlus, .plus fileCls],
      lits "wc" ++ [wsPlus] ++ lits "-" ++ [.plus (.oneOf ['l', 'w', 'c']), wsPlus, .plus fileCls] ] ]

/-- Embeds `is_command_auto_approved` (lines 116-119):
`any(re.match(pattern, command.strip()) ...)`. -/
def is_command_auto_approved (command : String) : Bool :=
  let command := pyStrip command
  AUTO_APPROVED_PATTERNS.any (fun alts => alts.any (fun alt => matchHere alt command.data))

/-- Embeds `is_command_blocked` (lines 122-125):
`any(re.search(pattern, command.strip()) ...)`. -/
def is_command_blocked (command : String) : Bool :=
  let command := pyStrip command
  BLOCKED_PATTERNS.any (fun p => searchHere p command.data)

/-- Control outcome of the gate section of `bash_execute` (lines
160-176): a blocked command returns the `[BLOCKED]` message with no
subprocess and no interrupt; a non-auto-approved command raises the
`bash_approval` interrupt before any execution; an auto-approved
command proceeds to `subprocess.run`. -/
inductive BashAction where
  | blocked (msg : String)
  | requiresApproval (command : String)
  | execute (command : String)
  deriving DecidableEq, Repr

/-- Embeds the decision logic at the top of `bash_execute` (lines
160-176): strip, test `is_command_blocked`, then test
`is_command_auto_approved`. -/
def bash_execute_decision (command : String) : BashAction :=
  let command := pyStrip command
  if is_command_blocked command then
    .blocked ("[BLOCKED] Command blocked for safety: " ++ command)
  else if !is_command_auto_approved command then
    .requiresApproval command
  else
    .execute command

/-! ## Helper lemmas about the interrupt operations -/

theorem respond_cons_match {α : Type} (i : SubagentInterrupt α)
    (rest : List (SubagentInterrupt α)) (v : α) :
    respond_to_subagent_interrupt (i :: rest) i.id v =
      (true, { i with status := "responded", response := some v } :: rest) := by
  simp [respond_to_subagent_interrupt]

theorem respond_append_no_match {α : Type} (l₁ rest : List (SubagentInterrupt α))
    (iid : String) (v : α) (h : ∀ j ∈ l₁, j.id ≠ iid) :
    respond_to_subagent_interrupt (l₁ ++ rest) iid v =
      ((respond_to_subagent_interrupt rest iid v).1,
       l₁ ++ (respond_to_subagent_interrupt rest iid v).2) := by
  induction l₁ with
  | nil => simp
  | cons i l₁ ih =>
      have hi : i.id ≠ iid := h i (by simp)
      have ih' := ih (fun j hj => h j (by simp [hj]))
      simp [respond_to_subagent_interrupt, hi, ih']

theorem respond_no_match {α : Type} (l : List (SubagentInterrupt α))
    (iid : String) (v : α) (h : ∀ j ∈ l, j.id ≠ iid) :
    respond_to_subagent_interrupt l iid v = (false, l) := by
  induction l with
  | nil => rfl
  | cons i l ih =>
      have hi : i.id ≠ iid := h i (by simp)
      have ih' := ih (fun j hj => h j (by simp [hj]))
      simp [respond_to_subagent_interrupt, hi, ih']

theorem resume_append_no_responded {α : Type} (l₁ rest : List (SubagentInterrupt α))
    (h : ∀ j ∈ l₁, j.status ≠ "responded") :
    check_and_resume_subagents (l₁ ++ rest) =
      ((check_and_resume_subagents rest).1,
       l₁ ++ (check_and_resume_subagents rest).2) := by
  induction l₁ with
  | nil => simp
  | cons i l₁ ih =>
      have hi : i.status ≠ "responded" := h i (by simp)
      have ih' := ih (fun j hj => h j (by simp [hj]))
      simp [check_and_resume_subagents, hi, ih']

theorem resume_none_of_no_responded {α : Type} (l : List (SubagentInterrupt α))
    (h : ∀ j ∈ l, j.status ≠ "responded") :
    check_and_resume_subagents l = (none, l) := by
  induction l with
  | nil => rfl
  | cons i l ih =>
      have hi : i.status ≠ "responded" := h i (by simp)
      have ih' := ih (fun j hj => h j (by simp [hj]))
      simp [check_and_resume_subagents, hi, ih']

/-- C1 (amended): round trip for a state whose interrupt list is
`l₁ ++ i₀ :: l₂` where `i₀` is pending, no earlier entry shares its id
and no other entry is already in responded status: respond succeeds,
the next resume delivers exactly the responded value with `i₀`'s
subagent id and interrupt id and marks `i₀` resumed, and a further
resume call returns nothing. -/
theorem subagent_interrupt_round_trip {α : Type}
    (l₁ l₂ : List (SubagentInterrupt α)) (i₀ : SubagentInterrupt α) (v : α)
    (hpend : i₀.status = "pending")
    (hner : ∀ j ∈ l₁ ++ l₂, j.status ≠ "responded")
    (hid : ∀ j ∈ l₁, j.id ≠ i₀.id) :
    (respond_to_subagent_interrupt (l₁ ++ i₀ :: l₂) i₀.id v).1 = true ∧
    (check_and_resume_subagents
        (respond_to_subagent_interrupt (l₁ ++ i₀ :: l₂) i₀.id v).2).1 =
      some { resume_subagent_id := i₀.subagent_id
             resume_value := some v
             interrupt_id := i₀.id } ∧
    (check_and_resume_subagents
        (respond_to_subagent_interrupt (l₁ ++ i₀ :: l₂) i₀.id v).2).2 =
      l₁ ++ { i₀ with status := "resumed", response := some v } :: l₂ ∧
    (check_and_resume_subagents
        (check_and_resume_subagents
          (respond_to_subagent_interrupt (l₁ ++ i₀ :: l₂) i₀.id v).2).2).1 = none := by
  have hner₁ : ∀ j ∈ l₁, j.status ≠ "responded" := fun j hj => hner j (by simp [hj])
  have hner₂ : ∀ j ∈ l₂, j.status ≠ "responded" := fun j hj => hner j (by simp [hj])
  have hr := respond_append_no_match l₁ (i₀ :: l₂) i₀.id v hid
  have hr₂ : respond_to_subagent_interrupt (i₀ :: l₂) i₀.id v =
      (true, { i₀ with status := "responded", response := some v } :: l₂) := by
    simp [respond_to_subagent_interrupt]
  rw [hr, hr₂]
  refine ⟨rfl, ?_⟩
  have hc := resume_append_no_responded l₁
    ({ i₀ with status := "responded", response := some v } :: l₂) hner₁
  have hc₂ : check_and_resume_subagents
      ({ i₀ with status := "responded", response := some v } :: l₂) =
      (some { resume_subagent_id := i₀.subagent_id
              resume_value := some v
              interrupt_id := i₀.id },
       { i₀ with status := "resumed", response := some v } :: l₂) := by
    simp [check_and_resume_subagents]
  rw [hc, hc₂]
  refine ⟨rfl, rfl, ?_⟩
  have hall : ∀ j ∈ l₁ ++ { i₀ with status := "resumed", response := some v } :: l₂,
      j.status ≠ "responded" := by
    intro j hj
    rcases List.mem_append.mp hj with h1 | h2
    · exact hner₁ j h1
    · rcases List.mem_cons.mp h2 with h3 | h4
      · subst h3; simp
      · exact hner₂ j h4
  rw [resume_none_of_no_responded _ hall]

/-- C1 witness: a concrete two-interrupt state satisfying the amended
hypotheses, with the round trip evaluated. -/
theorem subagent_interrupt_round_trip_witness :
    (("p1" : String) = "p1") ∧
    ((respond_to_subagent_interrupt
        [({ id := "p0", subagent_id := "s0", subagent_name := "Zero",
            interrupt_type := "guidance", interrupt_data := [],
            response := none, created_at := 5, status := "resumed" } :
            SubagentInterrupt String),
         { id := "p1", subagent_id := "s1", subagent_name := "One",
           interrupt_type := "credentials", interrupt_data := [],
           response := none, created_at := 7, status := "pending" }]
        "p1" "passw0rd").1 = true ∧
      (check_and_resume_subagents
          (respond_to_subagent_interrupt
            [{ id := "p0", subagent_id := "s0", subagent_name := "Zero",
               interrupt_type := "guidance", interrupt_data := [],
               response := none, created_at := 5, status := "resumed" },
             { id := "p1", subagent_id := "s1", subagent_name := "One",
               interrupt_type := "credentials", interrupt_data := [],
               response := none, created_at := 7, status := "pending" }]
            "p1" "passw0rd").2).1 =
        some { resume_subagent_id := "s1", resume_value := some "passw0rd",
               interrupt_id := "p1" }) := by
  constructor
  · rfl
  · have h := subagent_interrupt_round_trip
      (α := String)
      [{ id := "p0", subagent_id := "s0", subagent_name := "Zero",
         interrupt_type := "guidance", interrupt_data := [],
         response := none, created_at := 5, status := "resumed" }] []
      { id := "p1", subagent_id := "s1", subagent_name := "One",
        interrupt_type := "credentials", interrupt_data := [],
        response := none, created_at := 7, status := "pending" }
      "passw0rd" (by decide) (by decide) (by decide)
    exact ⟨h.1, h.2.1⟩

/-- C1 counterexample: in a state that also contains an older interrupt
already in responded status, respond-then-resume does not return the
value just supplied for the pending interrupt `"b"`; resume delivers
the earlier responded interrupt `"a"` instead. -/
theorem subagent_interrupt_round_trip_counterexample :
    (check_and_resume_subagents
        (respond_to_subagent_interrupt
          [({ id := "a", subagent_id := "sa", subagent_name := "A",
              interrupt_type := "guidance", interrupt_data := [],
              response := some "w", created_at := 0, status := "responded" } :
              SubagentInterrupt String),
           { id := "b", subagent_id := "sb", subagent_name := "B",
             interrupt_type := "guidance", interrupt_data := [],
             response := none, created_at := 0, status := "pending" }]
          "b" "v").2).1 =
      some { resume_subagent_id := "sa", resume_value := some "w",
             interrupt_id := "a" } ∧
    (check_and_resume_subagents
        (respond_to_subagent_interrupt
          [({ id := "a", subagent_id := "sa", subagent_name := "A",
              interrupt_type := "guidance", interrupt_data := [],
              response := some "w", created_at := 0, status := "responded" } :
              SubagentInterrupt String),
           { id := "b", subagent_id := "sb", subagent_name := "B",
             interrupt_type := "guidance", interrupt_data := [],
             response := none, created_at := 0, status := "pending" }]
          "b" "v").2).1 ≠
      some { resume_subagent_id := "sb", resume_value := some "v",
             interrupt_id := "b" } := by
  constructor
  · rfl
  · decide

/-- C2 (amended): responding to an unknown id fails safely in both
layers, and `submit_response` also fails on a non-pending request
leaving the store unchanged; but `respond_to_subagent_interrupt` does
not check status — only the unknown-id case is a failure there. -/
theorem respond_protocol_violation {α : Type} (st : HumanLoopState α)
    (request_id : String) (response : α) (now : String)
    (l : List (SubagentInterrupt α)) (iid : String) (r : α) :
    (dictGet request_id st.human_requests = none →
        submit_response st request_id response now = (false, st)) ∧
    (∀ req, dictGet request_id st.human_requests = some req →
        req.status ≠ "pending" →
        submit_response st request_id response now = (false, st)) ∧
    ((∀ j ∈ l, j.id ≠ iid) →
        respond_to_subagent_interrupt l iid r = (false, l)) := by
  refine ⟨?_, ?_, ?_⟩
  · intro h
    simp [submit_response, h]
  · intro req hreq hstat
    simp [submit_response, hreq, hstat]
  · exact respond_no_match l iid r

/-- C2 witness: a store holding one completed request and an interrupt
list without the queried id, with all hypotheses discharged
concretely. -/
theorem respond_protocol_violation_witness :
    (dictGet "t_guidance_9"
        [("t_guidance_1",
          ({ id := "t_guidance_1", type := "guidance", thread_id := "t",
             context := "c", question := "q", options := none,
             status := "completed", created_at := "T0",
             response := some "done", completed_at := some "T1" } :
             HumanRequest String))] = none) ∧
    (submit_response
        ({ human_requests :=
             [("t_guidance_1",
               { id := "t_guidance_1", type := "guidance", thread_id := "t",
                 context := "c", question := "q", options := none,
                 status := "completed", created_at := "T0",
                 response := some "done", completed_at := some "T1" })],
           request_counter := 1 } : HumanLoopState String)
        "t_guidance_9" "late answer" "T2" =
      (false,
       { human_requests :=
           [("t_guidance_1",
             { id := "t_guidance_1", type := "guidance", thread_id := "t",
               context := "c", question := "q", options := none,
               status := "completed", created_at := "T0",
               response := some "done", completed_at := some "T1" })],
         request_counter := 1 })) ∧
    (respond_to_subagent_interrupt ([] : List (SubagentInterrupt String)) "i9" "v" =
      (false, [])) := by
  refine ⟨by decide, ?_, ?_⟩
  · exact (respond_protocol_violation
      ({ human_requests :=
           [("t_guidance_1",
             { id := "t_guidance_1", type := "guidance", thread_id := "t",
               context := "c", question := "q", options := none,
               status := "completed", created_at := "T0",
               response := some "done", completed_at := some "T1" })],
         request_counter := 1 } : HumanLoopState String)
      "t_guidance_9" "late answer" "T2" [] "i9" "v").1 (by decide)
  · exact (respond_protocol_violation
      ({ human_requests := [], request_counter := 0 } : HumanLoopState String)
      "x" "y" "T" [] "i9" "v").2.2 (by simp)

/-- C2 counterexample: responding through
`respond_to_subagent_interrupt` to an interrupt that is already in
`"resumed"` (not `"pending"`) status returns `True`, not a failure
signal, and overwrites its status and stored response. -/
theorem respond_protocol_violation_counterexample :
    (respond_to_subagent_interrupt
        [({ id := "a", subagent_id := "sa", subagent_name := "A",
            interrupt_type := "guidance", interrupt_data := [],
            response := some "old", created_at := 0, status := "resumed" } :
            SubagentInterrupt String)]
        "a" "new").1 = true ∧
    (respond_to_subagent_interrupt
        [({ id := "a", subagent_id := "sa", subagent_name := "A",
            interrupt_type := "guidance", interrupt_data := [],
            response := some "old", created_at := 0, status := "resumed" } :
            SubagentInterrupt String)]
        "a" "new").2 =
      [{ id := "a", subagent_id := "sa", subagent_name := "A",
         interrupt_type := "guidance", interrupt_data := [],
         response := some "new", created_at := 0, status := "responded" }] := by
  constructor <;> decide

/-- C3 (amended): `_create_request` never checks for an existing live
request from the same origin: it unconditionally stores a fresh
`pending` request under a new id and leaves every other entry — in
particular a still-pending one for the same thread — untouched, with no
error signalled. -/
theorem create_request_no_origin_enforcement {α : Type} (st : HumanLoopState α)
    (request_type thread_id context question : String)
    (options : Option (List String)) (now : String) :
    ((create_request st request_type thread_id context question options now).1.status
        = "pending") ∧
    ((create_request st request_type thread_id context question options now).1.thread_id
        = thread_id) ∧
    (dictGet (create_request st request_type thread_id context question options now).1.id
        (create_request st request_type thread_id context question options now).2.human_requests
      = some (create_request st request_type thread_id context question options now).1) ∧
    (∀ rid, rid ≠ (create_request st request_type thread_id context question options now).1.id →
        dictGet rid
          (create_request st request_type thread_id context question options now).2.human_requests
        = dictGet rid st.human_requests) := by
  refine ⟨rfl, rfl, ?_, ?_⟩
  · exact dictGet_dictSet_self _ _ _
  · intro rid hrid
    exact dictGet_dictSet_ne _ _ _ _ (fun h => hrid h.symm)

/-- C3 witness: creating a request in a concrete store, with the
fresh-id hypothesis of the last conjunct discharged at `"other"`. -/
theorem create_request_no_origin_enforcement_witness :
    (("other" : String) ≠
      (create_request (HumanLoopState.initial String) "guidance" "t" "c" "q" none "T").1.id) ∧
    ((create_request (HumanLoopState.initial String) "guidance" "t" "c" "q" none "T").1.status
        = "pending") ∧
    (dictGet "other"
        (create_request (HumanLoopState.initial String) "guidance" "t" "c" "q" none "T").2.human_requests
      = dictGet "other" (HumanLoopState.initial String).human_requests) := by
  refine ⟨by decide, ?_, ?_⟩
  · exact (create_request_no_origin_enforcement
      (HumanLoopState.initial String) "guidance" "t" "c" "q" none "T").1
  · exact (create_request_no_origin_enforcement
      (HumanLoopState.initial String) "guidance" "t" "c" "q" none "T").2.2.2
      "other" (by decide)

/-- C3 counterexample: two consecutive guidance requests from the same
thread produce a reachable store in which that origin has two
concurrent live (pending) requests, with distinct ids and no error
raised — the claimed at-most-one-live-interrupt-per-origin invariant
does not hold and the second raise is not flagged. -/
theorem create_request_no_origin_enforcement_counterexample :
    (get_pending_requests
        (create_request
          (create_request (HumanLoopState.initial String) "guidance" "t" "c1" "q1" none "T1").2
          "guidance" "t" "c2" "q2" none "T2").2 "t").length = 2 ∧
    ¬ ((get_pending_requests
        (create_request
          (create_request (HumanLoopState.initial String) "guidance" "t" "c1" "q1" none "T1").2
          "guidance" "t" "c2" "q2" none "T2").2 "t").length ≤ 1) := by
  constructor <;> decide

/-- C4: within one process lifetime (any reachable allocator state),
allocating a port for a thread, releasing it, and allocating again
yields the same port as the first allocation, because the port is the
stable hash of the thread id mapped into the offset range. -/
theorem port_allocation_deterministic (md5Nat : String → Nat) (sm : StreamManager)
    (t : String) (h : StreamReachable md5Nat sm) :
    (get_port_for_thread md5Nat
        (release_port (get_port_for_thread md5Nat sm t).2 t) t).1 =
      (get_port_for_thread md5Nat sm t).1 := by
  obtain ⟨hb, hm, hcons⟩ := streamReachable_invariant md5Nat sm h
  have hrel : dictGet t (release_port (get_port_for_thread md5Nat sm t).2 t).active_ports
      = none := dictGet_dictDel_self _ _
  have hbase := get_port_snd md5Nat sm t
  rw [get_port_fst, get_port_fst, hrel]
  have hbm : (release_port (get_port_for_thread md5Nat sm t).2 t).base_port = sm.base_port ∧
      (release_port (get_port_for_thread md5Nat sm t).2 t).max_offset = sm.max_offset := by
    obtain ⟨h1, h2⟩ := get_preserves_base md5Nat sm t
    exact ⟨h1, h2⟩
  rw [hbm.1, hbm.2]
  cases hc : dictGet t sm.active_ports with
  | none => simp
  | some p => simp [hcons t p hc]

/-- C4 witness: the determinism round trip evaluated from the default
allocator state (reachability discharged by the initial state). -/
theorem port_allocation_deterministic_witness :
    StreamReachable (fun _ => 12345) StreamManager.default ∧
    (get_port_for_thread (fun _ => 12345)
        (release_port
          (get_port_for_thread (fun _ => 12345) StreamManager.default "thread-1").2
          "thread-1") "thread-1").1 =
      (get_port_for_thread (fun _ => 12345) StreamManager.default "thread-1").1 :=
  ⟨StreamReachable.init,
   port_allocation_deterministic (fun _ => 12345) StreamManager.default "thread-1"
     StreamReachable.init⟩

/-- C9: in every reachable state of the default stream manager, the
port returned for any thread lies in the closed range
`[9223, 10222]` = `[base_port, base_port + max_offset - 1]`, and the
stream URL is exactly `"ws://localhost:"` followed by that port. -/
theorem port_range_and_stream_url (md5Nat : String → Nat) (sm : StreamManager)
    (t : String) (h : StreamReachable md5Nat sm) :
    9223 ≤ (get_port_for_thread md5Nat sm t).1 ∧
    (get_port_for_thread md5Nat sm t).1 ≤ 10222 ∧
    (get_stream_url md5Nat sm t).1 =
      "ws://localhost:" ++ toString (get_port_for_thread md5Nat sm t).1 := by
  obtain ⟨hb, hm, hcons⟩ := streamReachable_invariant md5Nat sm h
  have hurl : (get_stream_url md5Nat sm t).1 =
      "ws://localhost:" ++ toString (get_port_for_thread md5Nat sm t).1 := by
    unfold get_stream_url
    rfl
  have hport : (get_port_for_thread md5Nat sm t).1 =
      sm.base_port + md5Nat t % sm.max_offset := by
    rw [get_port_fst]
    cases hc : dictGet t sm.active_ports with
    | none => simp
    | some p => simp [hcons t p hc]
  have hlt : md5Nat t % sm.max_offset < 1000 := by
    rw [hm]
    exact Nat.mod_lt _ (by norm_num)
  constructor
  · rw [hport, hb]; exact Nat.le_add_right _ _
  · exact ⟨by rw [hport, hb]; omega, hurl⟩

/-- C9 witness: the range and URL shape evaluated at the initial
allocator state with a concrete hash value. -/
theorem port_range_and_stream_url_witness :
    StreamReachable (fun _ => 54321) StreamManager.default ∧
    9223 ≤ (get_port_for_thread (fun _ => 54321) StreamManager.default "t2").1 ∧
    (get_port_for_thread (fun _ => 54321) StreamManager.default "t2").1 ≤ 10222 ∧
    (get_stream_url (fun _ => 54321) StreamManager.default "t2").1 =
      "ws://localhost:" ++
        toString (get_port_for_thread (fun _ => 54321) StreamManager.default "t2").1 :=
  ⟨StreamReachable.init,
   port_range_and_stream_url (fun _ => 54321) StreamManager.default "t2"
     StreamReachable.init⟩

/-- C5: the presented-files reducer is plain list concatenation with
`none` treated as empty, and merging the same partial update twice in
sequence duplicates every element of the partial — the reducer never
deduplicates. -/
theorem presented_files_reducer_append {δ : Type} [DecidableEq δ]
    (current update : Option (List δ)) :
    presented_files_reducer current update =
      current.getD [] ++ update.getD [] ∧
    ∀ x : δ,
      (presented_files_reducer
          (some (presented_files_reducer current update)) update).count x =
        (current.getD []).count x + 2 * (update.getD []).count x := by
  have happ : ∀ (c u : Option (List δ)),
      presented_files_reducer c u = c.getD [] ++ u.getD [] := by
    intro c u
    cases c <;> cases u <;> simp [presented_files_reducer]
  refine ⟨happ current update, ?_⟩
  intro x
  rw [happ, happ]
  cases current <;> cases update <;> simp [List.count_append] <;> ring

/-- C6: the command executor returns success exactly when the external
process exits with code 0 (and then the error field is empty), maps a
subprocess timeout to a failure record carrying the fixed
thirty-second timeout message, and the enforced timeout is 30
seconds. -/
theorem run_browser_command_contract (o : ProcOutcome) :
    ((run_browser_command_result o).success = true ↔
      ∃ out err, o = ProcOutcome.completed 0 out err) ∧
    ((run_browser_command_result o).error = none ↔
      (run_browser_command_result o).success = true) ∧
    (run_browser_command_result ProcOutcome.timedOut =
      { success := false, output := "",
        error := some "Command timed out after 30 seconds" }) ∧
    BROWSER_COMMAND_TIMEOUT_SECONDS = 30 := by
  refine ⟨?_, ?_, rfl, rfl⟩
  · cases o with
    | completed rc out err =>
        simp only [run_browser_command_result]
        constructor
        · intro h
          have : rc = 0 := by
            by_contra hne
            simp [beq_iff_eq, hne] at h
          exact ⟨out, err, by rw [this]⟩
        · rintro ⟨out', err', heq⟩
          cases heq
          simp
    | timedOut => simp [run_browser_command_result]
    | raised msg => simp [run_browser_command_result]
  · cases o with
    | completed rc out err =>
        by_cases h : rc = 0 <;> simp [run_browser_command_result, h]
    | timedOut => simp [run_browser_command_result]
    | raised msg => simp [run_browser_command_result]

/-- C10: a command that after stripping matches a blocked pattern makes
`bash_execute` return the `[BLOCKED]` message immediately: the decision
is neither the approval interrupt nor subprocess execution, so the
block check takes precedence over auto-approval and the approval
flow. -/
theorem blocked_commands_never_execute (command : String)
    (h : is_command_blocked (pyStrip command) = true) :
    bash_execute_decision command =
      BashAction.blocked ("[BLOCKED] Command blocked for safety: " ++ pyStrip command) := by
  unfold bash_execute_decision
  simp only [h, if_true]

/-- C10 witness: a concrete command that is simultaneously
auto-approved (it starts like a `cat` invocation) and blocked (it
contains `sudo`); the block wins and the decision is the `[BLOCKED]`
message. -/
theorem blocked_commands_never_execute_witness :
    is_command_blocked (pyStrip " cat notes.txt; sudo reboot ") = true ∧
    is_command_auto_approved (pyStrip " cat notes.txt; sudo reboot ") = true ∧
    bash_execute_decision " cat notes.txt; sudo reboot " =
      BashAction.blocked
        ("[BLOCKED] Command blocked for safety: " ++ pyStrip " cat notes.txt; sudo reboot ") :=
  ⟨by decide, by decide,
   blocked_commands_never_execute " cat notes.txt; sudo reboot " (by decide)⟩

/-! ## Helper lemmas for the session lifecycle -/

theorem browser_close_snd (md5Nat : String → Nat) (st : ToolsState) (t : String)
    (o : ProcOutcome) (now : Int) :
    (browser_close md5Nat st t o now).2 =
      update_browser_session md5Nat { st with sm := release_port st.sm t } t false true now := by
  unfold browser_close
  by_cases h : (run_browser_command_result o).success <;> simp [h]

theorem update_session_inactive_sm (md5Nat : String → Nat) (st : ToolsState)
    (t : String) (ula : Bool) (now : Int) :
    (update_browser_session md5Nat st t false ula now).sm = st.sm := rfl

theorem update_session_inactive_sessions (md5Nat : String → Nat) (st : ToolsState)
    (t : String) (ula : Bool) (now : Int) :
    (update_browser_session md5Nat st t false ula now).sessions =
      dictSet t
        { sessionId := t, streamUrl := none, isActive := false,
          lastActivity :=
            match dictGet t st.sessions with
            | some s => s.lastActivity
            | none => none } st.sessions := by
  unfold update_browser_session
  simp

/-- C7: after `browser_close` on any state, any thread and any
external close outcome — success or failure alike — the thread's port
mapping is gone and its registry entry is stored with
`isActive = false`; and when the session was already closed and the
external close command succeeds, the call additionally returns the
success message (idempotent close). -/
theorem browser_close_contract (md5Nat : String → Nat) (st : ToolsState)
    (t : String) (now : Int) (o : ProcOutcome) :
    (dictGet t ((browser_close md5Nat st t o now).2).sm.active_ports = none) ∧
    (∃ s, dictGet t ((browser_close md5Nat st t o now).2).sessions = some s ∧
      s.isActive = false) ∧
    ((run_browser_command_result o).success = true →
      ∀ s₀, dictGet t st.sessions = some s₀ → s₀.isActive = false →
        (browser_close md5Nat st t o now).1 = "Browser session closed successfully") := by
  refine ⟨?_, ?_, ?_⟩
  · rw [browser_close_snd, update_session_inactive_sm]
    exact dictGet_dictDel_self _ _
  · rw [browser_close_snd, update_session_inactive_sessions]
    exact ⟨_, dictGet_dictSet_self _ _ _, rfl⟩
  · intro ho s₀ _ _
    unfold browser_close
    simp [ho]

/-- C7 witness: closing an active session whose external close command
fails (times out) still releases the port and marks the entry
inactive; and re-closing the already-inactive session with the
external close exiting 0 reports success. All inner hypotheses are
discharged concretely. -/
theorem browser_close_contract_witness :
    (dictGet "t"
        ((browser_close (fun _ => 0)
            { sm := { base_port := 9223, max_offset := 1000,
                      active_ports := [("t", 9300)] },
              sessions := [("t", { sessionId := "t",
                                   streamUrl := some "ws://localhost:9300",
                                   isActive := true, lastActivity := some 5 })] }
            "t" ProcOutcome.timedOut 9).2).sm.active_ports = none) ∧
    (∃ s, dictGet "t"
        ((browser_close (fun _ => 0)
            { sm := { base_port := 9223, max_offset := 1000,
                      active_ports := [("t", 9300)] },
              sessions := [("t", { sessionId := "t",
                                   streamUrl := some "ws://localhost:9300",
                                   isActive := true, lastActivity := some 5 })] }
            "t" ProcOutcome.timedOut 9).2).sessions = some s ∧
      s.isActive = false) ∧
    (run_browser_command_result (ProcOutcome.completed 0 "" "")).success = true ∧
    dictGet "t"
        ({ sm := StreamManager.default,
           sessions := [("t", { sessionId := "t", streamUrl := none,
                                isActive := false, lastActivity := none })] } :
          ToolsState).sessions =
      some { sessionId := "t", streamUrl := none, isActive := false,
             lastActivity := none } ∧
    (browser_close (fun _ => 0)
        { sm := StreamManager.default,
          sessions := [("t", { sessionId := "t", streamUrl := none,
                               isActive := false, lastActivity := none })] }
        "t" (ProcOutcome.completed 0 "" "") 0).1 =
      "Browser session closed successfully" := by
  refine ⟨?_, ?_, by decide, by decide, ?_⟩
  · exact (browser_close_contract (fun _ => 0)
      { sm := { base_port := 9223, max_offset := 1000, active_ports := [("t", 9300)] },
        sessions := [("t", { sessionId := "t", streamUrl := some "ws://localhost:9300",
                             isActive := true, lastActivity := some 5 })] }
      "t" 9 ProcOutcome.timedOut).1
  · exact (browser_close_contract (fun _ => 0)
      { sm := { base_port := 9223, max_offset := 1000, active_ports := [("t", 9300)] },
        sessions := [("t", { sessionId := "t", streamUrl := some "ws://localhost:9300",
                             isActive := true, lastActivity := some 5 })] }
      "t" 9 ProcOutcome.timedOut).2.1
  · exact (browser_close_contract (fun _ => 0)
      { sm := StreamManager.default,
        sessions := [("t", { sessionId := "t", streamUrl := none,
                             isActive := false, lastActivity := none })] }
      "t" 0 (ProcOutcome.completed 0 "" "")).2.2 (by decide)
      { sessionId := "t", streamUrl := none, isActive := false, lastActivity := none }
      (by decide) (by decide)

theorem mem_of_dictGet_some {β : Type} (k : String) (v : β) (l : List (String × β))
    (h : dictGet k l = some v) : (k, v) ∈ l := by
  induction l with
  | nil => cases h
  | cons hd tl ih =>
      obtain ⟨k', v'⟩ := hd
      simp only [dictGet_cons] at h
      by_cases hk : k' = k
      · rw [if_pos hk] at h
        injection h with h
        subst h
        subst hk
        exact List.mem_cons_self _ _
      · rw [if_neg hk] at h
        exact List.mem_cons_of_mem _ (ih h)

theorem dictGet_some_of_mem_nodup {β : Type} (k : String) (v : β)
    (l : List (String × β)) (hm : (k, v) ∈ l)
    (hnd : (l.map Prod.fst).Nodup) : dictGet k l = some v := by
  induction l with
  | nil => cases hm
  | cons hd tl ih =>
      obtain ⟨k', v'⟩ := hd
      simp only [List.map_cons, List.nodup_cons] at hnd
      rcases List.mem_cons.mp hm with heq | hmem
      · injection heq with hk hv
        subst hk
        subst hv
        simp
      · have hk : k' ≠ k := by
          intro hc
          subst hc
          exact hnd.1 (List.mem_map.mpr ⟨(k', v), hmem, rfl⟩)
        simp only [dictGet_cons, if_neg hk]
        exact ih hmem hnd.2

theorem cleanup_close_step_self (st : ToolsState) (t : String) :
    dictGet t (cleanup_close_step st t).sm.active_ports = none ∧
    ∃ s, dictGet t (cleanup_close_step st t).sessions = some s ∧
      s.isActive = false := by
  unfold cleanup_close_step
  constructor
  · rw [update_session_inactive_sm]
    exact dictGet_dictDel_self _ _
  · rw [update_session_inactive_sessions]
    exact ⟨_, dictGet_dictSet_self _ _ _, rfl⟩

theorem cleanup_close_step_ne (st : ToolsState) (t t' : String) (h : t ≠ t') :
    dictGet t' (cleanup_close_step st t).sm.active_ports =
      dictGet t' st.sm.active_ports ∧
    dictGet t' (cleanup_close_step st t).sessions = dictGet t' st.sessions := by
  unfold cleanup_close_step
  constructor
  · rw [update_session_inactive_sm]
    exact dictGet_dictDel_ne _ _ _ h
  · rw [update_session_inactive_sessions]
    exact dictGet_dictSet_ne _ _ _ _ h

theorem foldl_close_preserve (L : List String) (st : ToolsState) (t : String)
    (h : t ∉ L) :
    dictGet t (L.foldl cleanup_close_step st).sm.active_ports =
      dictGet t st.sm.active_ports ∧
    dictGet t (L.foldl cleanup_close_step st).sessions = dictGet t st.sessions := by
  induction L generalizing st with
  | nil => exact ⟨rfl, rfl⟩
  | cons x L ih =>
      have hx : x ≠ t := fun hc => h (hc ▸ List.mem_cons_self x L)
      have hL : t ∉ L := fun hc => h (List.mem_cons_of_mem _ hc)
      obtain ⟨hp, hse⟩ := cleanup_close_step_ne st x t hx
      obtain ⟨hp', hse'⟩ := ih (cleanup_close_step st x) hL
      exact ⟨by rw [List.foldl_cons, hp', hp], by rw [List.foldl_cons, hse', hse]⟩

/-- C8: in one reaper tick, every active session idle strictly longer
than the 300-second threshold is closed (its thread appears in the
closed list, its port is released, its registry entry marked inactive),
while a session within the threshold or already inactive is untouched
by the tick. Keys of the session table are assumed unique, as for a
Python dict. -/
theorem cleanup_tick_selective (st : ToolsState) (now : Int) (t : String)
    (s : BrowserSession)
    (hnd : (st.sessions.map Prod.fst).Nodup)
    (hs : dictGet t st.sessions = some s) :
    (session_is_stale now s = true →
        t ∈ (cleanup_tick st now).2 ∧
        dictGet t (cleanup_tick st now).1.sm.active_ports = none ∧
        ∃ s', dictGet t (cleanup_tick st now).1.sessions = some s' ∧
          s'.isActive = false) ∧
    (∀ la, s.isActive = true → s.lastActivity = some la →
        now - la ≤ BROWSER_TIMEOUT_SECONDS →
        t ∉ (cleanup_tick st now).2 ∧
        dictGet t (cleanup_tick st now).1.sessions = some s ∧
        dictGet t (cleanup_tick st now).1.sm.active_ports =
          dictGet t st.sm.active_ports) ∧
    (s.isActive = false →
        t ∉ (cleanup_tick st now).2 ∧
        dictGet t (cleanup_tick st now).1.sessions = some s ∧
        dictGet t (cleanup_tick st now).1.sm.active_ports =
          dictGet t st.sm.active_ports) := by
  have htick : cleanup_tick st now =
      (((st.sessions.filter (fun p => session_is_stale now p.2)).map Prod.fst).foldl
          cleanup_close_step st,
       (st.sessions.filter (fun p => session_is_stale now p.2)).map Prod.fst) := rfl
  set inact := (st.sessions.filter (fun p => session_is_stale now p.2)).map Prod.fst
    with hinact
  have hnodup_inact : inact.Nodup := by
    rw [hinact]
    exact ((List.filter_sublist st.sessions).map Prod.fst).nodup hnd
  have hnot_stale_untouched : session_is_stale now s = false →
      t ∉ (cleanup_tick st now).2 ∧
      dictGet t (cleanup_tick st now).1.sessions = some s ∧
      dictGet t (cleanup_tick st now).1.sm.active_ports =
        dictGet t st.sm.active_ports := by
    intro hstale
    have hnotmem : t ∉ inact := by
      intro hmem
      rw [hinact] at hmem
      obtain ⟨⟨t', s'⟩, hmemf, heq⟩ := List.mem_map.mp hmem
      obtain ⟨hmems, hstale'⟩ := List.mem_filter.mp hmemf
      have hteq : t' = t := heq
      rw [hteq] at hmems
      have hget : dictGet t st.sessions = some s' :=
        dictGet_some_of_mem_nodup t s' st.sessions hmems hnd
      rw [hs] at hget
      injection hget with hget
      subst hget
      rw [hstale] at hstale'
      cases hstale'
    rw [htick]
    obtain ⟨hp, hse⟩ := foldl_close_preserve inact st t hnotmem
    exact ⟨hnotmem, by rw [hse]; exact hs, hp⟩
  refine ⟨?_, ?_, ?_⟩
  · intro hstale
    have hmem : t ∈ inact := by
      rw [hinact]
      exact List.mem_map.mpr
        ⟨(t, s), List.mem_filter.mpr ⟨mem_of_dictGet_some t s st.sessions hs, hstale⟩, rfl⟩
    obtain ⟨L₁, L₂, hL⟩ := List.append_of_mem hmem
    have hnd₂ : t ∉ L₂ := by
      rw [hL] at hnodup_inact
      exact (List.nodup_cons.mp
        ((List.sublist_append_right L₁ (t :: L₂)).nodup hnodup_inact)).1
    rw [htick]
    simp only
    refine ⟨hmem, ?_⟩
    rw [hL, List.foldl_append, List.foldl_cons]
    obtain ⟨hp0, hex⟩ := cleanup_close_step_self (L₁.foldl cleanup_close_step st) t
    obtain ⟨s', hse0, hact0⟩ := hex
    obtain ⟨hp1, hse1⟩ :=
      foldl_close_preserve L₂ (cleanup_close_step (L₁.foldl cleanup_close_step st) t) t hnd₂
    exact ⟨by rw [hp1, hp0], s', by rw [hse1, hse0], hact0⟩
  · intro la hact hla hle
    apply hnot_stale_untouched
    unfold session_is_stale
    rw [hact, hla]
    simp only [Bool.true_and, decide_eq_false_iff_not, not_lt]
    omega
  · intro hact
    apply hnot_stale_untouched
    unfold session_is_stale
    rw [hact]
    rfl

/-- C8 witness: a single active session idle for 1000 seconds is closed
by the tick; hypotheses (unique keys, the session lookup, staleness)
discharged concretely. -/
theorem cleanup_tick_selective_witness :
    ((([("t1",
         ({ sessionId := "t1", streamUrl := some "ws://localhost:9300",
            isActive := true, lastActivity := some 0 } : BrowserSession))] :
        List (String × BrowserSession)).map Prod.fst).Nodup) ∧
    (dictGet "t1"
        ({ sm := StreamManager.default,
           sessions :=
             [("t1", { sessionId := "t1", streamUrl := some "ws://localhost:9300",
                       isActive := true, lastActivity := some 0 })] } :
          ToolsState).sessions =
      some { sessionId := "t1", streamUrl := some "ws://localhost:9300",
             isActive := true, lastActivity := some 0 }) ∧
    (session_is_stale 1000
        { sessionId := "t1", streamUrl := some "ws://localhost:9300",
          isActive := true, lastActivity := some 0 } = true) ∧
    ("t1" ∈ (cleanup_tick
        { sm := StreamManager.default,
          sessions :=
            [("t1", { sessionId := "t1", streamUrl := some "ws://localhost:9300",
                      isActive := true, lastActivity := some 0 })] } 1000).2 ∧
      dictGet "t1" (cleanup_tick
        { sm := StreamManager.default,
          sessions :=
            [("t1", { sessionId := "t1", streamUrl := some "ws://localhost:9300",
                      isActive := true, lastActivity := some 0 })] } 1000).1.sm.active_ports
        = none ∧
      ∃ s', dictGet "t1" (cleanup_tick
          { sm := StreamManager.default,
            sessions :=
              [("t1", { sessionId := "t1", streamUrl := some "ws://localhost:9300",
                        isActive := true, lastActivity := some 0 })] } 1000).1.sessions
          = some s' ∧ s'.isActive = false) := by
  refine ⟨by decide, by decide, by decide, ?_⟩
  exact (cleanup_tick_selective
    { sm := StreamManager.default,
      sessions :=
        [("t1", { sessionId := "t1", streamUrl := some "ws://localhost:9300",
                  isActive := true, lastActivity := some 0 })] }
    1000 "t1"
    { sessionId := "t1", streamUrl := some "ws://localhost:9300",
      isActive := true, lastActivity := some 0 }
    (by decide) (by decide)).1 (by decide)
